import Mathlib

/-!
Shallow embedding of the uk-rail-tickets repository (an Express proxy server
in src/server/index.js and a browser frontend script in src/unnamed/part_000)
together with proofs about the behaviours its specification claims.

Modelling conventions:
  * JavaScript numbers are embedded as rationals (every JS float value is a
    rational; float rounding and NaN are idealised away).
  * Machine time (Date.now) is an explicit `Nat` parameter threaded through
    the cache operations.
  * The in-memory `Map` used as a cache is embedded as an association list
    whose lookup finds the first matching key; `set` removes the old binding
    and conses the new one, `delete` removes the binding.
  * Network calls are embedded by passing the upstream outcome as an
    explicit `Except` argument: `Except.ok json` for a 2xx response with the
    parsed body, `Except.error e` for a thrown upstream error carrying the
    optional numeric status (`err.status = res.status`).
  * JSON values are embedded by the inductive `JsonV`; JS truthiness of a
    JSON value is `JsonV.truthy` (null, false, 0 and the empty string are
    falsy, arrays and objects are truthy).
-/

/-- JSON value as manipulated by the JS code. -/
inductive JsonV where
  | null
  | bool (b : Bool)
  | num (q : ℚ)
  | str (s : String)
  | arr (elems : List JsonV)
  | obj (fields : List (String × JsonV))

/-- JS truthiness of a JSON value: null, false, 0 and the empty string are
falsy, everything else (including any array or object) is truthy. -/
def JsonV.truthy : JsonV → Bool
  | JsonV.null => false
  | JsonV.bool b => b
  | JsonV.num q => decide (q ≠ 0)
  | JsonV.str s => decide (s ≠ "")
  | JsonV.arr _ => true
  | JsonV.obj _ => true

/-- A cache entry, mirroring the object literal `{ value, expires }` stored
by `putCache` in src/server/index.js. -/
structure CacheEntry (V : Type) where
  value : V
  expires : Nat
deriving DecidableEq

/-- The in-memory cache `const cache = new Map()`, embedded as an
association list from key to entry. -/
abbrev Cache (V : Type) := List (String × CacheEntry V)

/-- Lookup in the embedded `Map` (`cache.get(key)`). -/
def mapGet {V : Type} (c : Cache V) (key : String) : Option (CacheEntry V) :=
  (c.find? (fun p => p.1 == key)).map Prod.snd

/-- Update in the embedded `Map` (`cache.set(key, entry)`): the previous
binding for the key, if any, is replaced. -/
def mapSet {V : Type} (c : Cache V) (key : String) (e : CacheEntry V) : Cache V :=
  (key, e) :: c.filter (fun p => !(p.1 == key))

/-- Deletion in the embedded `Map` (`cache.delete(key)`). -/
def mapDelete {V : Type} (c : Cache V) (key : String) : Cache V :=
  c.filter (fun p => !(p.1 == key))

/-- putCache from src/server/index.js lines 39-42: stores the value with
absolute expiry `Date.now() + ttlMs`. -/
def putCache {V : Type} (c : Cache V) (now : Nat) (key : String) (value : V)
    (ttlMs : Nat) : Cache V :=
  mapSet c key ⟨value, now + ttlMs⟩

/-- getCache from src/server/index.js lines 43-51. Returns the looked-up
value (`none` embeds the JS `null` miss result) together with the cache
after the lazy eviction the read may have performed. The miss branch fires
only when `Date.now() > hit.expires`, i.e. strictly after expiry. -/
def getCache {V : Type} (c : Cache V) (now : Nat) (key : String) :
    Option V × Cache V :=
  match mapGet c key with
  | none => (none, c)
  | some hit =>
    if hit.expires < now then (none, mapDelete c key)
    else (some hit.value, c)

/-- The value getCache actually hands back in JS for a JSON-valued cache:
`null` on a miss, which is literally the JSON value `null`. -/
def getCacheJs (c : Cache JsonV) (now : Nat) (key : String) : JsonV :=
  match (getCache c now key).1 with
  | none => JsonV.null
  | some v => v

/-- Upstream error object thrown by cachedFetchJson: `err.status` is the
upstream HTTP status when one was observed. -/
structure UpErr where
  status : Option Nat
deriving DecidableEq

/-- Result of one call to cachedFetchJson: the returned-or-thrown outcome,
the cache afterwards, and whether the upstream was actually contacted. -/
structure FetchResult where
  result : Except UpErr JsonV
  cache : Cache JsonV
  fetched : Bool

/-- The fetch-and-store tail of cachedFetchJson (src/server/index.js lines
58-70): contact the upstream; a non-2xx response is thrown as an error
carrying its status; a success is stored in the cache and returned. -/
def cachedFetchGo (c : Cache JsonV) (now : Nat) (key : String) (ttlMs : Nat)
    (upstream : Except UpErr JsonV) : FetchResult :=
  match upstream with
  | Except.error e => { result := Except.error e, cache := c, fetched := true }
  | Except.ok json =>
      { result := Except.ok json
        cache := putCache c now key json ttlMs
        fetched := true }

/-- cachedFetchJson from src/server/index.js lines 54-71. The JS guard is
`const hit = getCache(key); if (hit) return hit;` — a truthiness test on
the cached value itself, so a cached falsy value falls through to the
upstream fetch exactly like a miss. -/
def cachedFetchJson (c : Cache JsonV) (now : Nat) (url : String) (ttlMs : Nat)
    (upstream : Except UpErr JsonV) : FetchResult :=
  let key := "fetch:" ++ url
  let g := getCache c now key
  match g.1 with
  | some hit =>
      if hit.truthy then { result := Except.ok hit, cache := g.2, fetched := false }
      else cachedFetchGo g.2 now key ttlMs upstream
  | none => cachedFetchGo g.2 now key ttlMs upstream

/-- URL of the remote canonical stations list (src/server/index.js line 80). -/
def stationsRemote : String :=
  "https://raw.githubusercontent.com/davwheat/uk-railway-stations/main/stations.json"

/-- Default stations cache TTL, 24 hours in milliseconds (src/server/index.js line 15). -/
def ttlStationsMs : Nat := 24 * 60 * 60 * 1000

/-- Default search cache TTL, 1 hour in milliseconds (src/server/index.js line 17). -/
def ttlSearchMs : Nat := 60 * 60 * 1000

/-- Default fares cache TTL, 10 minutes in milliseconds (src/server/index.js line 16). -/
def ttlFaresMs : Nat := 10 * 60 * 1000

/-- The JS expression `e.status || 502`: the carried status when it is a
truthy number, 502 otherwise. -/
def statusOr502 (s : Option Nat) : Nat :=
  match s with
  | some n => if n = 0 then 502 else n
  | none => 502

/-- Error body sent when both the remote stations fetch and the local
fallback file fail (src/server/index.js line 109). -/
def stationsErrBody : JsonV :=
  JsonV.obj [( "error", JsonV.str "Failed to retrieve stations")]

/-- The GET /api/stations handler (src/server/index.js lines 98-112).
The remote fetch goes through cachedFetchJson; on failure the local
fallback file is read and parsed (its combined outcome is the `fallback`
argument); if that also fails the response carries `e.status || 502`.
The async write-through of the mirror file is I/O outside the embedding.
Returns the pair (HTTP status, body) and the cache afterwards. -/
def stationsHandler (c : Cache JsonV) (now : Nat) (upstream : Except UpErr JsonV)
    (fallback : Except Unit JsonV) : (Nat × JsonV) × Cache JsonV :=
  let fr := cachedFetchJson c now stationsRemote ttlStationsMs upstream
  match fr.result with
  | Except.ok json => ((200, json), fr.cache)
  | Except.error e =>
    match fallback with
    | Except.ok parsed => ((200, parsed), fr.cache)
    | Except.error _ => ((statusOr502 e.status, stationsErrBody), fr.cache)

/-- Truthiness of an optional query-string parameter: absent (undefined)
and the empty string are falsy, any other string is truthy. -/
def truthyParam (q : Option String) : Bool :=
  match q with
  | none => false
  | some s => decide (s ≠ "")

/-- The JS String.prototype.trim, embedded structurally over the character
list (String.trim in core is defined by well-founded recursion on byte
positions, which blocks kernel evaluation; this version drops whitespace
from both ends of the character list). -/
def jsTrim (s : String) : String :=
  ⟨((s.data.dropWhile Char.isWhitespace).reverse.dropWhile Char.isWhitespace).reverse⟩

/-- The GET /api/loc handler (src/server/index.js lines 115-126). The
term is defaulted, stringified and trimmed; an empty result short-circuits
to the empty array before any cache or upstream access. URL-encoding of
the term is elided. The third component records whether the upstream was
contacted. -/
def locHandler (c : Cache JsonV) (now : Nat) (term : Option String)
    (upstream : Except UpErr JsonV) : (Nat × JsonV) × Cache JsonV × Bool :=
  let t := jsTrim (term.getD "")
  if t = "" then ((200, JsonV.arr []), c, false)
  else
    let fr := cachedFetchJson c now ("https://gw.brfares.com/legacy_ac_loc?term=" ++ t)
      ttlSearchMs upstream
    match fr.result with
    | Except.ok json => ((200, json), fr.cache, fr.fetched)
    | Except.error e =>
        ((statusOr502 e.status, JsonV.obj [( "error", JsonV.str "Failed to search locations")]),
          fr.cache, fr.fetched)

/-- The GET /api/railcards handler (src/server/index.js lines 129-140),
structured exactly like the /api/loc handler. -/
def railcardsHandler (c : Cache JsonV) (now : Nat) (term : Option String)
    (upstream : Except UpErr JsonV) : (Nat × JsonV) × Cache JsonV × Bool :=
  let t := jsTrim (term.getD "")
  if t = "" then ((200, JsonV.arr []), c, false)
  else
    let fr := cachedFetchJson c now ("https://gw.brfares.com/legacy_ac_rlc?term=" ++ t)
      ttlSearchMs upstream
    match fr.result with
    | Except.ok json => ((200, json), fr.cache, fr.fetched)
    | Except.error e =>
        ((statusOr502 e.status, JsonV.obj [( "error", JsonV.str "Failed to search railcards")]),
          fr.cache, fr.fetched)

/-- Error body of the 400 response of GET /api/fares (src/server/index.js
line 145). -/
def faresErrBody : JsonV :=
  JsonV.obj [( "error", JsonV.str "orig and dest are required")]

/-- The upstream query string built by the GET /api/fares handler
(src/server/index.js lines 147-152), as the ordered key/value list held by
the URLSearchParams object: orig and dest unconditionally, then date, time
and rlc forwarded verbatim when truthy, then `rtn=1` when rtn is truthy.
URL-encoding performed by `params.toString()` is elided. -/
def faresQuery (orig dest date time rlc rtn : Option String) :
    List (String × String) :=
  let ps := [( "orig", orig.getD ""), ( "dest", dest.getD "")]
  let ps := if truthyParam date then ps ++ [( "date", date.getD "")] else ps
  let ps := if truthyParam time then ps ++ [( "time", time.getD "")] else ps
  let ps := if truthyParam rlc then ps ++ [( "rlc", rlc.getD "")] else ps
  if truthyParam rtn then ps ++ [( "rtn", "1")] else ps

/-- The guard and query-building part of the GET /api/fares handler
(src/server/index.js lines 143-153): a falsy orig or dest yields the 400
error response with no upstream contact, otherwise the upstream is
queried with the built parameter list (the subsequent fetch/response step
is the same cachedFetchJson pattern as the other proxies). -/
def faresHandler (orig dest date time rlc rtn : Option String) :
    Except (Nat × JsonV) (List (String × String)) :=
  if !truthyParam orig || !truthyParam dest then Except.error (400, faresErrBody)
  else Except.ok (faresQuery orig dest date time rlc rtn)

/-- A raw entry of the remote stations JSON as consumed by loadStations in
src/unnamed/part_000: each field the code touches may be absent. Numeric
fields are rationals (JS floats idealised). -/
structure RawStation where
  name : String
  crs : Option String
  lat : Option ℚ
  long : Option ℚ
  lon : Option ℚ
deriving DecidableEq

/-- A station as kept in the frontend STATIONS array after loadStations
projects it. -/
structure Station where
  name : String
  crs : String
  lat : ℚ
  lon : ℚ
deriving DecidableEq

/-- Truthiness of an optional JS number: absent and 0 are falsy. -/
def truthyNum (q : Option ℚ) : Bool :=
  match q with
  | none => false
  | some x => decide (x ≠ 0)

/-- The filter predicate `s => s.crs && s.lat && s.long` of loadStations
(src/unnamed/part_000 line 69): conjunction of JS truthiness of the three
fields. -/
def rawKeep (s : RawStation) : Bool :=
  truthyParam s.crs && truthyNum s.lat && truthyNum s.long

/-- The JS expression `s.long || s.lon` used in the projection: the long
field when truthy, otherwise the lon field (defaulting an absent value to
0; after rawKeep the fallback branch is unreachable). -/
def jsOrNum (a b : Option ℚ) : ℚ :=
  if truthyNum a then a.getD 0 else b.getD 0

/-- loadStations from src/unnamed/part_000 lines 61-72 (pure core): filter
the raw list by rawKeep, then project each entry to the Station shape. -/
def loadStations (raw : List RawStation) : List Station :=
  (raw.filter rawKeep).map (fun s =>
    { name := s.name, crs := s.crs.getD "", lat := s.lat.getD 0
      lon := jsOrNum s.long s.lon })

/-- A latitude/longitude pair such as the geocoder returns; coordinates
are rationals (JS floats idealised). -/
structure GeoPoint where
  lat : ℚ
  lon : ℚ
deriving DecidableEq

/-- The coordinate pair of a station, as read by haversine. -/
def Station.point (s : Station) : GeoPoint :=
  ⟨s.lat, s.lon⟩

/-- toRadians from src/unnamed/part_000 line 74. -/
noncomputable def toRadians (d : ℝ) : ℝ :=
  d * Real.pi / 180

/-- Math.atan2(y, x), embedded as the argument of the complex number
x + y i (the standard mathematical atan2). -/
noncomputable def atan2 (y x : ℝ) : ℝ :=
  Complex.arg ⟨x, y⟩

/-- haversine from src/unnamed/part_000 lines 75-82: great-circle distance
in km with Earth radius 6371, over the idealised real numbers. -/
noncomputable def haversine (a b : GeoPoint) : ℝ :=
  let R : ℝ := 6371
  let dLat := toRadians ((b.lat : ℝ) - (a.lat : ℝ))
  let dLon := toRadians ((b.lon : ℝ) - (a.lon : ℝ))
  let s1 := Real.sin (dLat / 2) ^ 2 +
    Real.cos (toRadians (a.lat : ℝ)) * Real.cos (toRadians (b.lat : ℝ)) *
      Real.sin (dLon / 2) ^ 2
  let c := 2 * atan2 (Real.sqrt s1) (Real.sqrt (1 - s1))
  R * c

/-- Ordering of station/distance pairs by distance, the comparator
`(a, b) => a.distance - b.distance` of findNearbyStations. -/
def distLe {α : Type} [LE α] (a b : Station × α) : Prop :=
  a.2 ≤ b.2

instance {α : Type} [LinearOrder α] : DecidableRel (@distLe α _) :=
  fun a b => inferInstanceAs (Decidable (a.2 ≤ b.2))

instance {α : Type} [LinearOrder α] : IsTotal (Station × α) distLe :=
  ⟨fun a b => le_total a.2 b.2⟩

instance {α : Type} [LinearOrder α] : IsTrans (Station × α) distLe :=
  ⟨fun _ _ _ h₁ h₂ => le_trans h₁ h₂⟩

/-- findNearbyStations generalised over the distance measure: map each
station to the pair with its distance from the center, keep those within
the radius, sort ascending by distance (JS sort is stable; insertionSort
is the stable sort, and a stable sort result is unique), truncate to the
limit. -/
def findNearbyWith {α : Type} [LinearOrder α] (dist : GeoPoint → GeoPoint → α)
    (stations : List Station) (center : GeoPoint) (radiusKm : α) (limit : Nat) :
    List (Station × α) :=
  let withDist := stations.map (fun s => (s, dist center s.point))
  (((withDist.filter (fun p => decide (p.2 ≤ radiusKm))).insertionSort distLe).take limit)

/-- findNearbyStations from src/unnamed/part_000 lines 92-98: the pipeline
above with the haversine distance. -/
noncomputable def findNearbyStations (stations : List Station) (center : GeoPoint)
    (radiusKm : ℝ) (limit : Nat) : List (Station × ℝ) :=
  findNearbyWith haversine stations center radiusKm limit

/-- A fare object of the upstream fares response, with the fields the
frontend reads. `adult` is the top-level adult price when present and
numeric; `priceAdult` is `price.adult` when present and numeric (a present
but non-numeric value behaves like an absent one: it is filtered out by
the `typeof p === "number"` check either way). -/
structure Fare where
  adult : Option ℚ := none
  priceAdult : Option ℚ := none
  ticket : Option String := none
  ticket_code : Option String := none
  name : Option String := none
  ticket_name : Option String := none
deriving DecidableEq

/-- The price extractor of parseCheapestFare (src/unnamed/part_000 line
190): the numeric adult field if present, else price.adult. -/
def getPrice (f : Fare) : Option ℚ :=
  match f.adult with
  | some a => some a
  | none => f.priceAdult

/-- A fare together with its extracted numeric price `p`, as built by the
`map` step of parseCheapestFare. -/
structure PricedFare where
  fare : Fare
  p : ℚ
deriving DecidableEq

/-- Comparator `(a, b) => a.p - b.p` of parseCheapestFare. -/
def pLe (a b : PricedFare) : Prop :=
  a.p ≤ b.p

instance : DecidableRel pLe :=
  fun a b => inferInstanceAs (Decidable (a.p ≤ b.p))

instance : IsTotal PricedFare pLe :=
  ⟨fun a b => le_total a.p b.p⟩

instance : IsTrans PricedFare pLe :=
  ⟨fun _ _ _ h₁ h₂ => le_trans h₁ h₂⟩

/-- The map-and-filter step of parseCheapestFare: each fare paired with its
extracted price, keeping only those whose price is numeric. -/
def pricedFares (fares : List Fare) : List PricedFare :=
  fares.filterMap (fun f => (getPrice f).map (fun p => PricedFare.mk f p))

/-- parseCheapestFare from src/unnamed/part_000 lines 188-197. The input
is `none` when the response is null/absent or its fares field is not an
array; otherwise the fare list. Returns null when no fare has a numeric
price, else the head of the price-sorted priced fares. -/
def parseCheapestFare (faresJson : Option (List Fare)) : Option PricedFare :=
  match faresJson with
  | none => none
  | some fares => ((pricedFares fares).insertionSort pLe).head?

/-- The JS string fallback `a || b` for a plain string field. -/
def jsOrStr (a b : String) : String :=
  if a = "" then b else a

/-- The JS string fallback `a || b` where a may be absent. -/
def jsOrOpt (a : Option String) (b : String) : String :=
  match a with
  | none => b
  | some s => if s = "" then b else s

/-- stationByCRS from src/unnamed/part_000 lines 237-239 (the found part;
the `|| { name: crs, crs }` fallback is inlined at the use site). -/
def stationByCRS (stations : List Station) (crs : String) : Option Station :=
  stations.find? (fun s => s.crs == crs)

/-- One ComparisonRow as pushed by handleCompare (src/unnamed/part_000
lines 284-292). -/
structure Row where
  origin : String
  originName : String
  dest : String
  destName : String
  ticket : String
  ticketName : String
  price : ℚ
deriving DecidableEq

/-- Builds the row pushed for one origin whose fare response yielded a
priced cheapest fare: originName is `stationByCRS(crs).name || crs`
(the stationByCRS fallback object has name = crs, so an absent station
also yields crs); ticket is `cheapest.ticket || cheapest.ticket_code ||
""`; ticketName is `cheapest.name || cheapest.ticket_name || "Cheapest"`. -/
def rowOf (stations : List Station) (destCRS destName crs : String)
    (cheapest : PricedFare) : Row :=
  { origin := crs
    originName :=
      match stationByCRS stations crs with
      | some st => jsOrStr st.name crs
      | none => crs
    dest := destCRS
    destName := destName
    ticket := jsOrOpt cheapest.fare.ticket (jsOrOpt cheapest.fare.ticket_code "")
    ticketName := jsOrOpt cheapest.fare.name (jsOrOpt cheapest.fare.ticket_name "Cheapest")
    price := cheapest.p }

/-- Comparator `(a, b) => a.price - b.price` of handleCompare. -/
def rowLe (a b : Row) : Prop :=
  a.price ≤ b.price

instance : DecidableRel rowLe :=
  fun a b => inferInstanceAs (Decidable (a.price ≤ b.price))

instance : IsTotal Row rowLe :=
  ⟨fun a b => le_total a.price b.price⟩

instance : IsTrans Row rowLe :=
  ⟨fun _ _ _ h₁ h₂ => le_trans h₁ h₂⟩

/-- The per-origin outcome inside the comparison loop: `none` when the
fetch threw or no priced fare exists, otherwise the row pushed. -/
def rowEmit (stations : List Station) (destCRS destName : String)
    (p : String × Except Unit (Option (List Fare))) : Option Row :=
  match p.2 with
  | Except.error _ => none
  | Except.ok fares => (parseCheapestFare fares).map (rowOf stations destCRS destName p.1)

/-- The fare-comparison loop of handleCompare (src/unnamed/part_000 lines
277-300): iterate over the checked origins paired with their fare-fetch
outcome, pushing a row when the try body reaches a priced cheapest fare
and falling through to the next origin otherwise (the catch branch only
logs), then sort all rows ascending by price. -/
def handleCompare (stations : List Station) (destCRS destName : String)
    (fetches : List (String × Except Unit (Option (List Fare)))) : List Row :=
  let rows := fetches.foldl (fun rows p =>
    match p.2 with
    | Except.error _ => rows
    | Except.ok fares =>
      match parseCheapestFare fares with
      | none => rows
      | some cheapest => rows ++ [rowOf stations destCRS destName p.1 cheapest]) []
  rows.insertionSort rowLe

/-! Helper lemmas about the embedded Map operations. -/

theorem mapGet_mapSet_self {V : Type} (c : Cache V) (key : String) (e : CacheEntry V) :
    mapGet (mapSet c key e) key = some e := by
  simp [mapGet, mapSet, List.find?]

theorem mapGet_mapDelete_self {V : Type} (c : Cache V) (key : String) :
    mapGet (mapDelete c key) key = none := by
  induction c with
  | nil => rfl
  | cons p c ih =>
    unfold mapDelete mapGet at ih ⊢
    rw [List.filter_cons]
    by_cases h1 : (p.1 == key) = true
    · simp only [h1, Bool.not_true, Bool.false_eq_true, if_false]
      exact ih
    · have h1' : (p.1 == key) = false := by simpa using h1
      simp only [h1', Bool.not_false, if_true]
      rw [List.find?_cons_of_neg _ (by simp [h1'])]
      exact ih

/-- C3 counterexample: the claim says that once `now` reaches `expiresAt`
the entry is gone, but at `now = expiresAt` (put at time 0 with ttl 5 and
read at time 5) getCache still returns the stored value, because the code
only misses when strictly `Date.now() > hit.expires`. -/
theorem getCache_at_expiry_counterexample :
    (0 : Nat) + 5 ≤ 5
  ∧ (getCache (putCache ([] : Cache Nat) 0 "k" 7 5) 5 "k").1 = some 7 := by
  decide

/-- C3 (amended): after put(k,v,ttl) at time `now`, get(k) at `now`
returns v; the entry stays visible while the read time is at most
`now + ttl` (expiry inclusive), and once the read time strictly exceeds
`now + ttl` the read returns a miss and removes the entry. -/
theorem getCache_putCache_spec {V : Type} (c : Cache V) (now : Nat) (k : String)
    (v : V) (ttl : Nat) (t : Nat) :
    (getCache (putCache c now k v ttl) now k).1 = some v
  ∧ (t ≤ now + ttl → (getCache (putCache c now k v ttl) t k).1 = some v)
  ∧ (now + ttl < t →
      (getCache (putCache c now k v ttl) t k).1 = none
      ∧ mapGet (getCache (putCache c now k v ttl) t k).2 k = none) := by
  have hget : mapGet (putCache c now k v ttl) k = some ⟨v, now + ttl⟩ :=
    mapGet_mapSet_self c k ⟨v, now + ttl⟩
  refine ⟨?_, ?_, ?_⟩
  · simp [getCache, hget, Nat.not_lt.mpr (Nat.le_add_right now ttl)]
  · intro ht
    simp [getCache, hget, Nat.not_lt.mpr ht]
  · intro ht
    constructor
    · simp [getCache, hget, ht]
    · simp only [getCache, hget, if_pos ht]
      exact mapGet_mapDelete_self _ _

/-- Witness for the amended C3 theorem at concrete inputs: a read at time
3 of an entry put at time 0 with ttl 5 hits, and a read at time 6 misses
and leaves no entry behind. -/
theorem getCache_putCache_spec_witness :
    ((3 : Nat) ≤ 0 + 5 ∧ (getCache (putCache ([] : Cache Nat) 0 "k" 7 5) 3 "k").1 = some 7)
  ∧ (0 + 5 < 6 ∧ (getCache (putCache ([] : Cache Nat) 0 "k" 7 5) 6 "k").1 = none
      ∧ mapGet (getCache (putCache ([] : Cache Nat) 0 "k" 7 5) 6 "k").2 "k" = none) := by
  refine ⟨⟨by decide, (getCache_putCache_spec [] 0 "k" 7 5 3).2.1 (by decide)⟩, ?_⟩
  have h := (getCache_putCache_spec ([] : Cache Nat) 0 "k" 7 5 6).2.2 (by decide)
  exact ⟨by decide, h.1, h.2⟩

/-- C4 counterexample: a stored JSON null is indistinguishable from the
miss signal (getCache returns the JS value null in both cases), and with
null cached and unexpired, cachedFetchJson still contacts the upstream. -/
theorem cachedFetchJson_null_refetch_counterexample :
    getCacheJs (putCache ([] : Cache JsonV) 0 "fetch:u" JsonV.null 10) 0 "fetch:u"
      = getCacheJs [] 0 "fetch:u"
  ∧ (cachedFetchJson (putCache ([] : Cache JsonV) 0 "fetch:u" JsonV.null 10) 0 "u" 10
      (Except.ok (JsonV.str "fresh"))).fetched = true :=
  ⟨rfl, rfl⟩

/-- C4 (amended): the cached-fetch layer guards with a JS truthiness test
on the cached value, so a truthy cached value read before expiry is
returned without contacting the upstream, while a falsy cached value
(null, false, 0 or the empty string) is treated like a miss and causes an
upstream fetch. -/
theorem cachedFetchJson_truthiness_spec (c : Cache JsonV) (now : Nat) (url : String)
    (ttl putTtl : Nat) (v : JsonV) (up : Except UpErr JsonV) :
    (v.truthy = true →
      (cachedFetchJson (putCache c now ("fetch:" ++ url) v putTtl) now url ttl up).result
        = Except.ok v
      ∧ (cachedFetchJson (putCache c now ("fetch:" ++ url) v putTtl) now url ttl up).fetched
        = false)
  ∧ (v.truthy = false →
      (cachedFetchJson (putCache c now ("fetch:" ++ url) v putTtl) now url ttl up).fetched
        = true) := by
  have hget : mapGet (putCache c now ("fetch:" ++ url) v putTtl) ("fetch:" ++ url)
      = some ⟨v, now + putTtl⟩ :=
    mapGet_mapSet_self c ("fetch:" ++ url) ⟨v, now + putTtl⟩
  have hgc : getCache (putCache c now ("fetch:" ++ url) v putTtl) now ("fetch:" ++ url)
      = (some v, putCache c now ("fetch:" ++ url) v putTtl) := by
    simp [getCache, hget, Nat.not_lt.mpr (Nat.le_add_right now putTtl)]
  constructor
  · intro htr
    constructor
    · simp [cachedFetchJson, hgc, htr]
    · simp [cachedFetchJson, hgc, htr]
  · intro hf
    cases up with
    | error e => simp [cachedFetchJson, hgc, hf, cachedFetchGo]
    | ok j => simp [cachedFetchJson, hgc, hf, cachedFetchGo]

/-- Witness for the amended C4 theorem: a cached truthy string is served
without a fetch, while cached null triggers a fetch. -/
theorem cachedFetchJson_truthiness_spec_witness :
    (JsonV.str "x").truthy = true
  ∧ (cachedFetchJson (putCache ([] : Cache JsonV) 0 ("fetch:" ++ "u") (JsonV.str "x") 10)
      0 "u" 10 (Except.error ⟨none⟩)).fetched = false
  ∧ JsonV.null.truthy = false
  ∧ (cachedFetchJson (putCache ([] : Cache JsonV) 0 ("fetch:" ++ "u") JsonV.null 10)
      0 "u" 10 (Except.error ⟨none⟩)).fetched = true := by
  refine ⟨rfl, ?_, rfl, ?_⟩
  · exact ((cachedFetchJson_truthiness_spec [] 0 "u" 10 10 (JsonV.str "x")
      (Except.error ⟨none⟩)).1 rfl).2
  · exact (cachedFetchJson_truthiness_spec [] 0 "u" 10 10 JsonV.null
      (Except.error ⟨none⟩)).2 rfl

/-- C6: when the cached/remote stations fetch fails, the handler serves
the parsed fallback file with status 200; if the fallback also fails it
responds with the original failure status (and 502 when that status is
unknown or zero, per `e.status || 502`). -/
theorem stationsHandler_fallback_spec (c : Cache JsonV) (now : Nat)
    (up : Except UpErr JsonV) (fb : Except Unit JsonV) (e : UpErr) (v : JsonV) :
    ((cachedFetchJson c now stationsRemote ttlStationsMs up).result = Except.error e →
      (fb = Except.ok v → (stationsHandler c now up fb).1 = (200, v))
      ∧ (fb = Except.error () →
          (stationsHandler c now up fb).1 = (statusOr502 e.status, stationsErrBody)))
  ∧ (∀ s : Nat, s ≠ 0 → statusOr502 (some s) = s)
  ∧ statusOr502 none = 502 := by
  refine ⟨?_, ?_, rfl⟩
  · intro herr
    constructor
    · intro hfb
      subst hfb
      simp [stationsHandler, herr]
    · intro hfb
      subst hfb
      simp [stationsHandler, herr]
  · intro s hs
    simp [statusOr502, hs]

/-- Witness for C6: with an unreachable remote (unknown status) and a
valid fallback the handler answers 200 with the fallback content; with the
fallback also failing it answers 502 with the error body. -/
theorem stationsHandler_fallback_spec_witness :
    (stationsHandler [] 0 (Except.error ⟨none⟩) (Except.ok (JsonV.arr []))).1
      = (200, JsonV.arr [])
  ∧ (stationsHandler [] 0 (Except.error ⟨none⟩) (Except.error ())).1
      = (502, stationsErrBody) := by
  have h1 := (stationsHandler_fallback_spec [] 0 (Except.error ⟨none⟩)
    (Except.ok (JsonV.arr [])) ⟨none⟩ (JsonV.arr [])).1 (by rfl)
  have h2 := (stationsHandler_fallback_spec [] 0 (Except.error ⟨none⟩)
    (Except.error ()) ⟨none⟩ (JsonV.arr [])).1 (by rfl)
  exact ⟨h1.1 rfl, h2.2 rfl⟩

/-- C7: a request to GET /api/fares whose orig or dest parameter is
missing is answered with status 400 and the fixed error body, without any
upstream contact (the handler result is the error branch, which never
reaches the fetch). -/
theorem faresHandler_missing_spec (orig dest date time rlc rtn : Option String)
    (h : orig = none ∨ dest = none) :
    faresHandler orig dest date time rlc rtn = Except.error (400, faresErrBody) := by
  cases h with
  | inl h => subst h; simp [faresHandler, truthyParam]
  | inr h => subst h; simp [faresHandler, truthyParam]

/-- Witness for C7 on a concrete request with no orig. -/
theorem faresHandler_missing_spec_witness :
    faresHandler none (some "MAN") none none none none
      = Except.error (400, faresErrBody) :=
  faresHandler_missing_spec none (some "MAN") none none none none (Or.inl rfl)

/-- C8: on GET /api/loc and GET /api/railcards, a missing, empty or
whitespace-only term produces the 200 empty-array response, leaves the
cache untouched, and performs no upstream fetch (the response does not
depend on the upstream argument at all). -/
theorem searchHandlers_emptyTerm_spec (c : Cache JsonV) (now : Nat)
    (term : Option String) (up : Except UpErr JsonV)
    (h : jsTrim (term.getD "") = "") :
    locHandler c now term up = ((200, JsonV.arr []), c, false)
  ∧ railcardsHandler c now term up = ((200, JsonV.arr []), c, false) := by
  constructor
  · simp [locHandler, h]
  · simp [railcardsHandler, h]

/-- Witness for C8: a whitespace-only term on /api/loc and an absent term
on /api/railcards, each with an upstream that would fail. -/
theorem searchHandlers_emptyTerm_spec_witness :
    locHandler [] 0 (some "  ") (Except.error ⟨none⟩) = ((200, JsonV.arr []), [], false)
  ∧ railcardsHandler [] 0 none (Except.error ⟨none⟩) = ((200, JsonV.arr []), [], false) :=
  ⟨(searchHandlers_emptyTerm_spec [] 0 (some "  ") (Except.error ⟨none⟩) (by decide)).1,
   (searchHandlers_emptyTerm_spec [] 0 none (Except.error ⟨none⟩) (by decide)).2⟩

/-- C10: with orig and dest present (truthy), the handler queries the
upstream with the built parameter list; that list carries `rtn=1`
(literally the string 1, whatever the given rtn value was) exactly when
the rtn parameter is truthy, i.e. any non-empty string including 0 and
false, and carries no rtn pair otherwise; date, time and rlc are
forwarded with their given values when truthy. -/
theorem faresHandler_rtn_spec (orig dest date time rlc rtn : Option String)
    (ho : truthyParam orig = true) (hd : truthyParam dest = true) :
    faresHandler orig dest date time rlc rtn
      = Except.ok (faresQuery orig dest date time rlc rtn)
  ∧ (truthyParam rtn = true → ( "rtn", "1") ∈ faresQuery orig dest date time rlc rtn)
  ∧ (truthyParam rtn = false → ∀ w, ( "rtn", w) ∉ faresQuery orig dest date time rlc rtn)
  ∧ (∀ w, ( "rtn", w) ∈ faresQuery orig dest date time rlc rtn → w = "1")
  ∧ (truthyParam date = true → ( "date", date.getD "") ∈ faresQuery orig dest date time rlc rtn)
  ∧ (truthyParam date = false → ∀ w, ( "date", w) ∉ faresQuery orig dest date time rlc rtn)
  ∧ (truthyParam time = true → ( "time", time.getD "") ∈ faresQuery orig dest date time rlc rtn)
  ∧ (truthyParam rlc = true → ( "rlc", rlc.getD "") ∈ faresQuery orig dest date time rlc rtn) := by
  refine ⟨by simp [faresHandler, ho, hd], ?_, ?_, ?_, ?_, ?_, ?_, ?_⟩
  · intro h
    unfold faresQuery
    simp only [h, if_true]
    simp
  · intro h w
    unfold faresQuery
    simp only [h, Bool.false_eq_true, if_false]
    split
    all_goals split
    all_goals split
    all_goals simp
  · intro w hw
    unfold faresQuery at hw
    split at hw
    all_goals split at hw
    all_goals split at hw
    all_goals split at hw
    all_goals simp at hw
    all_goals simp [hw]
  · intro h
    unfold faresQuery
    simp only [h, if_true]
    split
    all_goals split
    all_goals split
    all_goals simp
  · intro h w
    unfold faresQuery
    simp only [h, Bool.false_eq_true, if_false]
    split
    all_goals split
    all_goals split
    all_goals simp
  · intro h
    unfold faresQuery
    simp only [h, if_true]
    split
    all_goals split
    all_goals split
    all_goals simp
  · intro h
    unfold faresQuery
    simp only [h, if_true]
    split
    all_goals split
    all_goals simp

/-- Witness for C10: a concrete request with orig=PAD, dest=MAN and
rtn=0 still sends `rtn=1`, and with rtn absent no rtn pair is sent. -/
theorem faresHandler_rtn_spec_witness :
    ( "rtn", "1") ∈ faresQuery (some "PAD") (some "MAN") none none none (some "0")
  ∧ (∀ w, ( "rtn", w) ∉ faresQuery (some "PAD") (some "MAN") none none none none)
  ∧ faresHandler (some "PAD") (some "MAN") none none none (some "0")
      = Except.ok (faresQuery (some "PAD") (some "MAN") none none none (some "0")) := by
  refine ⟨?_, ?_, ?_⟩
  · exact (faresHandler_rtn_spec (some "PAD") (some "MAN") none none none (some "0")
      (by decide) (by decide)).2.1 (by decide)
  · exact (faresHandler_rtn_spec (some "PAD") (some "MAN") none none none none
      (by decide) (by decide)).2.2.1 (by decide)
  · exact (faresHandler_rtn_spec (some "PAD") (some "MAN") none none none (some "0")
      (by decide) (by decide)).1

/-- C9: loadStations drops every raw entry whose crs, lat or long field is
absent or falsy; in particular an entry whose latitude or longitude is
exactly 0 is dropped even with both coordinates present, and an entry
carrying its longitude only in a lon field (long absent) is dropped. -/
theorem loadStations_spec (raw₁ raw₂ : List RawStation) (s : RawStation) :
    (rawKeep s = false → loadStations (raw₁ ++ s :: raw₂) = loadStations (raw₁ ++ raw₂))
  ∧ (s.lat = some 0 → rawKeep s = false)
  ∧ (s.long = some 0 → rawKeep s = false)
  ∧ (s.long = none → rawKeep s = false)
  ∧ (s.crs = none → rawKeep s = false)
  ∧ (s.lat = none → rawKeep s = false)
  ∧ (rawKeep s = true ↔
      (truthyParam s.crs = true ∧ truthyNum s.lat = true ∧ truthyNum s.long = true)) := by
  refine ⟨?_, ?_, ?_, ?_, ?_, ?_, ?_⟩
  · intro h
    simp [loadStations, List.filter_append, List.filter_cons, h]
  · intro h
    simp [rawKeep, truthyNum, h]
  · intro h
    simp [rawKeep, truthyNum, h]
  · intro h
    simp [rawKeep, truthyNum, h]
  · intro h
    simp [rawKeep, truthyParam, h]
  · intro h
    simp [rawKeep, truthyNum, h]
  · rw [rawKeep, Bool.and_eq_true, Bool.and_eq_true]
    exact and_assoc

/-- Witness for C9: a station at latitude exactly 0 and a station whose
longitude sits only in a lon field are both dropped. -/
theorem loadStations_spec_witness :
    loadStations [⟨ "Zero Lat", some "ZLA", some 0, some 1, none⟩] = loadStations []
  ∧ loadStations [⟨ "Lon only", some "LON", some 51, none, some 2⟩] = loadStations [] := by
  constructor
  · exact (loadStations_spec [] [] ⟨ "Zero Lat", some "ZLA", some 0, some 1, none⟩).1
      ((loadStations_spec [] [] ⟨ "Zero Lat", some "ZLA", some 0, some 1, none⟩).2.1 rfl)
  · exact (loadStations_spec [] [] ⟨ "Lon only", some "LON", some 51, none, some 2⟩).1
      ((loadStations_spec [] [] ⟨ "Lon only", some "LON", some 51, none, some 2⟩).2.2.2.1 rfl)

/-- The two fares of the specification scenario
`{fares:[{adult:4500,ticket:"SVR"},{adult:3200,ticket:"OFF"}]}`. -/
def exampleSVR : Fare :=
  { adult := some 4500, ticket := some "SVR" }

/-- The OFF fare of the specification scenario. -/
def exampleOFF : Fare :=
  { adult := some 3200, ticket := some "OFF" }

/-- The fare list of the specification scenario. -/
def exampleFares : List Fare :=
  [exampleSVR, exampleOFF]

/-- The priced fare parseCheapestFare extracts from the scenario list. -/
def exampleCheapest : PricedFare :=
  ⟨exampleOFF, 3200⟩

/-- Head of the price-sorted list is a minimal element of the input. -/
theorem head?_insertionSort_pLe_min (l : List PricedFare) (pf : PricedFare)
    (h : (l.insertionSort pLe).head? = some pf) :
    pf ∈ l ∧ ∀ q ∈ l, pf.p ≤ q.p := by
  have hperm := List.perm_insertionSort pLe l
  have hsorted := List.sorted_insertionSort pLe l
  obtain ⟨xs, hs⟩ : ∃ xs, l.insertionSort pLe = pf :: xs := by
    cases hsort : l.insertionSort pLe with
    | nil => rw [hsort] at h; cases h
    | cons a b =>
      rw [hsort] at h
      simp only [List.head?_cons, Option.some.injEq] at h
      subst h
      exact ⟨b, rfl⟩
  rw [hs] at hperm hsorted
  have hmin : ∀ b ∈ xs, pLe pf b := List.rel_of_sorted_cons hsorted
  refine ⟨hperm.subset (List.mem_cons_self pf xs), fun q hq => ?_⟩
  have hq' : q ∈ pf :: xs := hperm.mem_iff.mpr hq
  cases List.mem_cons.mp hq' with
  | inl he => rw [he]
  | inr hin => exact hmin q hin

/-- C1: parseCheapestFare returns none on an absent fare list and on a
list with no numerically priced fare; any returned fare is one of the
priced fares and its price is minimal among them; and on the scenario
list it selects price 3200 with ticket OFF. -/
theorem parseCheapestFare_spec (fares : List Fare) :
    parseCheapestFare none = none
  ∧ (pricedFares fares = [] → parseCheapestFare (some fares) = none)
  ∧ (∀ pf, parseCheapestFare (some fares) = some pf →
      pf ∈ pricedFares fares ∧ ∀ q ∈ pricedFares fares, pf.p ≤ q.p)
  ∧ (parseCheapestFare (some exampleFares)).map (fun pf => (pf.p, pf.fare.ticket))
      = some (3200, some "OFF") := by
  refine ⟨rfl, ?_, ?_, by decide⟩
  · intro h
    simp [parseCheapestFare, h]
  · intro pf h
    exact head?_insertionSort_pLe_min (pricedFares fares) pf h

/-- Witness for C1 at the scenario input: the extracted fare is the OFF
fare at price 3200, it belongs to the priced fares of the list, and its
price is minimal among them. -/
theorem parseCheapestFare_spec_witness :
    parseCheapestFare (some exampleFares) = some exampleCheapest
  ∧ exampleCheapest ∈ pricedFares exampleFares
  ∧ ∀ q ∈ pricedFares exampleFares, exampleCheapest.p ≤ q.p := by
  have h := (parseCheapestFare_spec exampleFares).2.2.1 exampleCheapest (by decide)
  exact ⟨by decide, h.1, h.2⟩

/-- The row-accumulating foldl of handleCompare equals the accumulator
followed by the per-origin emissions. -/
theorem compare_foldl_eq (stations : List Station) (destCRS destName : String)
    (fetches : List (String × Except Unit (Option (List Fare)))) (acc : List Row) :
    fetches.foldl (fun rows p =>
      match p.2 with
      | Except.error _ => rows
      | Except.ok fares =>
        match parseCheapestFare fares with
        | none => rows
        | some cheapest => rows ++ [rowOf stations destCRS destName p.1 cheapest]) acc
    = acc ++ fetches.filterMap (rowEmit stations destCRS destName) := by
  induction fetches generalizing acc with
  | nil => simp
  | cons p ps ih =>
    rw [List.foldl_cons, List.filterMap_cons]
    cases hp : p.2 with
    | error e =>
      simp only [hp]
      rw [ih]
      simp [rowEmit, hp]
    | ok fares =>
      cases hc : parseCheapestFare fares with
      | none =>
        simp only [hp, hc]
        rw [ih]
        simp [rowEmit, hp, hc]
      | some cheapest =>
        simp only [hp, hc]
        rw [ih]
        simp [rowEmit, hp, hc]

/-- C5: the comparison loop never aborts on a failing origin: its result
is exactly the rows emitted for the origins whose fetch succeeded and
yielded a priced fare (a permutation, since the output is re-ordered),
sorted ascending by price; every origin with a priced fare contributes its
row; and when every origin fails or prices nothing the result is the
empty list, a valid outcome. -/
theorem handleCompare_spec (stations : List Station) (destCRS destName : String)
    (fetches : List (String × Except Unit (Option (List Fare)))) :
    List.Sorted rowLe (handleCompare stations destCRS destName fetches)
  ∧ (handleCompare stations destCRS destName fetches).Perm
      (fetches.filterMap (rowEmit stations destCRS destName))
  ∧ (∀ crs fares pf, (crs, Except.ok fares) ∈ fetches → parseCheapestFare fares = some pf →
      rowOf stations destCRS destName crs pf ∈ handleCompare stations destCRS destName fetches)
  ∧ ((∀ p ∈ fetches, rowEmit stations destCRS destName p = none) →
      handleCompare stations destCRS destName fetches = []) := by
  have hdef : handleCompare stations destCRS destName fetches
      = (fetches.filterMap (rowEmit stations destCRS destName)).insertionSort rowLe := by
    unfold handleCompare
    rw [compare_foldl_eq stations destCRS destName fetches []]
    rw [List.nil_append]
  refine ⟨?_, ?_, ?_, ?_⟩
  · rw [hdef]
    exact List.sorted_insertionSort rowLe _
  · rw [hdef]
    exact List.perm_insertionSort rowLe _
  · intro crs fares pf hmem hpf
    rw [hdef]
    have hin : rowOf stations destCRS destName crs pf
        ∈ fetches.filterMap (rowEmit stations destCRS destName) := by
      refine List.mem_filterMap.mpr ⟨(crs, Except.ok fares), hmem, ?_⟩
      simp [rowEmit, hpf]
    exact (List.perm_insertionSort rowLe _).mem_iff.mpr hin
  · intro hall
    rw [hdef]
    have hnil : fetches.filterMap (rowEmit stations destCRS destName) = [] := by
      simp only [List.filterMap_eq_nil_iff]
      exact hall
    rw [hnil]
    rfl

/-- A concrete station for the C5 witness. -/
def stAlpha : Station :=
  ⟨ "Alpha", "AAA", 1, 2⟩

/-- Concrete per-origin fetch outcomes for the C5 witness: one priced
origin, one failed fetch, one empty fare list. -/
def wFetches : List (String × Except Unit (Option (List Fare))) :=
  [( "AAA", Except.ok (some exampleFares)),
   ( "BBB", Except.error ()),
   ( "CCC", Except.ok (some []))]

/-- Witness for C5: with one of three origins failing and one pricing
nothing, the surviving origin contributes its row and the result is
sorted. -/
theorem handleCompare_spec_witness :
    rowOf [stAlpha] "MAN" "Manchester" "AAA" exampleCheapest
      ∈ handleCompare [stAlpha] "MAN" "Manchester" wFetches
  ∧ List.Sorted rowLe (handleCompare [stAlpha] "MAN" "Manchester" wFetches) := by
  constructor
  · refine (handleCompare_spec [stAlpha] "MAN" "Manchester" wFetches).2.2.1
      "AAA" (some exampleFares) exampleCheapest ?_ (by decide)
    unfold wFetches
    exact List.mem_cons_self _ _
  · exact (handleCompare_spec [stAlpha] "MAN" "Manchester" wFetches).1

/-- C2: every pair returned by findNearbyStations carries the haversine
distance of its station from the center and that distance is within the
radius (never a station farther than radiusKm); the output is sorted
ascending by distance; it has at most limit entries; and it is the
limit-truncation of a distance-sorted permutation of exactly the
within-radius stations. -/
theorem findNearbyStations_spec (stations : List Station) (center : GeoPoint)
    (radiusKm : ℝ) (limit : Nat) :
    (∀ p ∈ findNearbyStations stations center radiusKm limit,
        p.2 = haversine center p.1.point ∧ p.2 ≤ radiusKm)
  ∧ List.Sorted distLe (findNearbyStations stations center radiusKm limit)
  ∧ (findNearbyStations stations center radiusKm limit).length ≤ limit
  ∧ ∃ l : List (Station × ℝ),
      l.Perm ((stations.map (fun s => (s, haversine center s.point))).filter
        (fun p => decide (p.2 ≤ radiusKm)))
      ∧ List.Sorted distLe l
      ∧ findNearbyStations stations center radiusKm limit = l.take limit := by
  have hdef : findNearbyStations stations center radiusKm limit
      = (((stations.map (fun s => (s, haversine center s.point))).filter
          (fun p => decide (p.2 ≤ radiusKm))).insertionSort distLe).take limit := rfl
  refine ⟨?_, ?_, ?_, ?_⟩
  · intro p hp
    rw [hdef] at hp
    have hp1 : p ∈ ((stations.map (fun s => (s, haversine center s.point))).filter
        (fun p => decide (p.2 ≤ radiusKm))).insertionSort distLe :=
      List.mem_of_mem_take hp
    have hp2 : p ∈ (stations.map (fun s => (s, haversine center s.point))).filter
        (fun p => decide (p.2 ≤ radiusKm)) :=
      (List.perm_insertionSort distLe _).subset hp1
    have hp3 := List.mem_filter.mp hp2
    obtain ⟨s, _, hs⟩ := List.mem_map.mp hp3.1
    constructor
    · rw [← hs]
    · exact of_decide_eq_true hp3.2
  · rw [hdef]
    exact List.Pairwise.sublist (List.take_sublist limit _)
      (List.sorted_insertionSort distLe _)
  · rw [hdef]
    exact List.length_take_le limit _
  · refine ⟨((stations.map (fun s => (s, haversine center s.point))).filter
      (fun p => decide (p.2 ≤ radiusKm))).insertionSort distLe,
      List.perm_insertionSort distLe _, List.sorted_insertionSort distLe _, hdef⟩

/-- Witness for C2 at a concrete center and radius over the empty station
directory: the query returns the empty list, via the sorted-permutation
characterisation of the theorem. -/
theorem findNearbyStations_spec_witness :
    findNearbyStations [] ⟨51, 0⟩ 10 5 = [] := by
  obtain ⟨l, hperm, hsort, heq⟩ := (findNearbyStations_spec [] ⟨51, 0⟩ 10 5).2.2.2
  simp only [List.map_nil, List.filter_nil, List.perm_nil] at hperm
  rw [heq, hperm]
  rfl
